import Mathlib

/-!
Verification of `naabu.py`: a single-file CLI that checks for an external
binary, runs it once against one target with a timeout, classifies the
result, and persists captured stdout to a timestamped file.

The embedding models each Python function as a pure Lean function over an
explicit environment describing the behaviour of `subprocess.run`.  External
process behaviour is an event: either a completed process (return code,
stdout, stderr) or one of the exceptions `subprocess.run` can raise
(`TimeoutExpired`, `FileNotFoundError`, any other launch-time error).
-/

namespace Naabu

/-- The characters Python `str.isspace()` holds for and `str.strip()`
removes: U+0009..U+000D, U+001C..U+001F, the space, U+0085 (next line),
U+00A0 (no-break space), U+1680, the Unicode space separators
U+2000..U+200A, U+2028, U+2029, U+202F, U+205F and U+3000. -/
def pyIsSpace (c : Char) : Bool :=
  ('\x09' ≤ c && c ≤ '\x0d') || c = ' ' || ('\x1c' ≤ c && c ≤ '\x1f')
    || c = '\u0085' || c = '\u00a0' || c = '\u1680'
    || ('\u2000' ≤ c && c ≤ '\u200a') || c = '\u2028' || c = '\u2029'
    || c = '\u202f' || c = '\u205f' || c = '\u3000'

/-- Python `str.strip()`: remove leading and trailing whitespace. -/
def pyStrip (s : String) : String :=
  String.mk (((s.toList.dropWhile pyIsSpace).reverse.dropWhile pyIsSpace).reverse)

/-- What one call to `subprocess.run` does, as observed by this program:
either the process completed (with its return code, captured stdout and
captured stderr, `text=True`), or the call raised `TimeoutExpired`,
`FileNotFoundError`, or some other launch-time exception. -/
inductive RunEvent where
  | completed (returncode : Int) (stdout : String) (stderr : String)
  | timedOut
  | fileNotFound
  | otherError (msg : String)
deriving DecidableEq

/-- Result of running a Python function: a normal return value, or an
exception that propagates to the caller. -/
inductive PyOutcome (α : Type) where
  | ok (v : α)
  | raised (exn : String)
deriving DecidableEq

/-- The execution environment: `exec args timeout` is what `subprocess.run`
does for a given argument list and timeout, and `now` is the timestamp
string produced by `datetime.now().strftime(...)`. -/
structure Env where
  exec : List String → Nat → RunEvent
  now : String

/-- Argument list of the dependency check (src/naabu.py line 39). -/
def version_command : List String := ["/go/bin/naabu", "-version"]

/-- Argument list built by `run_naabu` (src/naabu.py lines 85-89). -/
def naabu_command (domain : String) : List String :=
  ["/go/bin/naabu", "-host", domain, "-silent"]

/-- `check_naabu_installed` (src/naabu.py lines 35-47): run the version
query with a 5-second timeout; `True` iff it returned with code 0.  Only
`TimeoutExpired` and `FileNotFoundError` are caught; any other exception
propagates to the caller. -/
def check_naabu_installed (ev : RunEvent) : PyOutcome Bool :=
  match ev with
  | .completed rc _ _ => .ok (rc == 0)
  | .timedOut => .ok false
  | .fileNotFound => .ok false
  | .otherError m => .raised m

/-- `run_naabu` (src/naabu.py lines 83-120): run the scan command with a
300-second timeout and classify the outcome.  Return code -9 (SIGKILL) and
any other non-zero return code surface stdout only when it is non-empty
after `strip()`; return code 0 returns stdout unconditionally; every
exception (`TimeoutExpired`, `FileNotFoundError`, anything else) is caught
and mapped to `None`. -/
def run_naabu (domain : String) (exec : List String → Nat → RunEvent) : Option String :=
  match exec (naabu_command domain) 300 with
  | .completed rc out _ =>
      if rc = -9 then
        if pyStrip out ≠ "" then some out else none
      else if rc ≠ 0 then
        if pyStrip out ≠ "" then some out else none
      else some out
  | .timedOut => none
  | .fileNotFound => none
  | .otherError _ => none

/-- The output path written by `run_naabu_and_save`
(src/naabu.py lines 68-72). -/
def output_filepath (now : String) : String := "outputs/" ++ now ++ "-naabu.txt"

/-- `run_naabu_and_save` (src/naabu.py lines 60-81): call the runner; when
it reports absence, write nothing and return 1; otherwise write the captured
output to the timestamped file and return 0.  The second component records
the file written (path, contents), `none` when no file is created. -/
def run_naabu_and_save (domain : String) (env : Env) : Nat × Option (String × String) :=
  match run_naabu domain env.exec with
  | none => (1, none)
  | some out => (0, some (output_filepath env.now, out))

/-- How an invocation of the program ends: `sys.exit(code)`, or an uncaught
exception aborting the interpreter. -/
inductive MainOutcome where
  | exited (code : Nat)
  | uncaught (exn : String)
deriving DecidableEq

/-- The `NameError` raised at src/naabu.py line 26: `main` calls
`run_naabu_wordlist_generation_and_save`, a name defined nowhere in the
file (the defined function is `run_naabu_and_save`, which is never
called). -/
def nameErrorMsg : String :=
  "NameError: name run_naabu_wordlist_generation_and_save is not defined"

/-- `main` (src/naabu.py lines 9-33), paired with the file it creates
(always `none`: the line that would run the scan raises `NameError`).
With fewer than two argv entries it exits 1; a failing dependency check
exits 1; an exception escaping the check propagates; once the check passes,
evaluating the undefined name at line 26 raises `NameError`, so the branch
that would reach `sys.exit(0)` is unreachable.  (`activate_venv`,
src/naabu.py lines 49-58, only prints and is omitted.) -/
def main (argv : List String) (env : Env) : MainOutcome × Option (String × String) :=
  if argv.length < 2 then (.exited 1, none)
  else
    match check_naabu_installed (env.exec version_command 5) with
    | .raised e => (.uncaught e, none)
    | .ok false => (.exited 1, none)
    | .ok true => (.uncaught nameErrorMsg, none)

/-! ## Claims -/

/-- Claim C1 (code bug): the CLI is meant to exit 0 on success and 1 on any
failure, but line 26 of src/naabu.py calls the undefined name
`run_naabu_wordlist_generation_and_save`, so once the dependency check
passes the interpreter aborts with `NameError`: a fully successful
environment never reaches `sys.exit(0)`, and no invocation of `main` can
exit with code 0. -/
theorem c1_main_never_exits_zero :
    main ["naabu.py", "example.com"]
      ⟨fun _ _ => RunEvent.completed 0 "80\n" "", "20261012"⟩
      = (.uncaught nameErrorMsg, none)
    ∧ ∀ (argv : List String) (env : Env),
        (main argv env).1 = .exited 1 ∨ ∃ e, (main argv env).1 = .uncaught e := by
  constructor
  · rfl
  · intro argv env
    unfold main
    by_cases h : argv.length < 2
    · rw [if_pos h]
      exact Or.inl rfl
    · rw [if_neg h]
      cases check_naabu_installed (env.exec version_command 5) with
      | raised e => exact Or.inr ⟨e, rfl⟩
      | ok b =>
        cases b with
        | false => exact Or.inl rfl
        | true => exact Or.inr ⟨nameErrorMsg, rfl⟩

/-- Claim C2: for every non-empty target, when the spawned process exits
with status 0 the runner returns its captured stdout as usable data, even
when that stdout is empty. -/
theorem c2_success_returns_stdout (domain : String)
    (exec : List String → Nat → RunEvent) (out err : String)
    (hdom : domain ≠ "")
    (h : exec (naabu_command domain) 300 = .completed 0 out err) :
    run_naabu domain exec = some out := by
  simp [run_naabu, h]

/-- Claim C2 witness: a stub that exits 0 and prints "X" yields the
successful result carrying "X". -/
theorem c2_witness :
    run_naabu "example.com" (fun _ _ => RunEvent.completed 0 "X" "") = some "X" :=
  c2_success_returns_stdout "example.com" _ "X" "" (by decide) rfl

/-- Claim C3, exactly as stated: output is present (`run_naabu` returns a
non-`none` value) only when the underlying process produced non-empty
standard output, regardless of exit status. -/
def c3_claim : Prop :=
  ∀ (domain : String) (exec : List String → Nat → RunEvent)
    (rc : Int) (out err : String),
    exec (naabu_command domain) 300 = .completed rc out err →
    run_naabu domain exec ≠ none → out ≠ ""

/-- Claim C3 counterexample: a process that exits 0 with empty stdout still
yields a present (`some ""`) result, so the claimed invariant fails. -/
theorem c3_counterexample : ¬ c3_claim := by
  intro h
  exact h "example.com" (fun _ _ => RunEvent.completed 0 "" "") 0 "" "" rfl
    (by decide) rfl

/-- Claim C3 (amended): whenever `run_naabu` returns a present value, that
value is exactly the stdout of a completed process, and either the process
exited 0 (where even empty stdout is returned) or its stdout is non-empty
after stripping whitespace. -/
theorem c3_presence_invariant (domain : String)
    (exec : List String → Nat → RunEvent) (r : String)
    (h : run_naabu domain exec = some r) :
    ∃ rc err, exec (naabu_command domain) 300 = .completed rc r err
      ∧ (rc = 0 ∨ pyStrip r ≠ "") := by
  cases hev : exec (naabu_command domain) 300 with
  | completed rc out err =>
    simp only [run_naabu, hev] at h
    by_cases h9 : rc = -9
    · rw [if_pos h9] at h
      by_cases hs : pyStrip out ≠ ""
      · rw [if_pos hs] at h
        cases h
        exact ⟨rc, err, rfl, Or.inr hs⟩
      · rw [if_neg hs] at h
        cases h
    · rw [if_neg h9] at h
      by_cases h0 : rc ≠ 0
      · rw [if_pos h0] at h
        by_cases hs : pyStrip out ≠ ""
        · rw [if_pos hs] at h
          cases h
          exact ⟨rc, err, rfl, Or.inr hs⟩
        · rw [if_neg hs] at h
          cases h
      · rw [if_neg h0] at h
        cases h
        push_neg at h0
        exact ⟨rc, err, rfl, Or.inl h0⟩
  | timedOut =>
    simp only [run_naabu, hev] at h
    exact Option.noConfusion h
  | fileNotFound =>
    simp only [run_naabu, hev] at h
    exact Option.noConfusion h
  | otherError m =>
    simp only [run_naabu, hev] at h
    exact Option.noConfusion h

/-- Claim C3 witness (amended invariant at a concrete input): a successful
run with stdout "ok" satisfies the invariant. -/
theorem c3_witness :
    ∃ rc err,
      (fun (_ : List String) (_ : Nat) => RunEvent.completed 0 "ok" "")
          (naabu_command "example.com") 300 = RunEvent.completed rc "ok" err
        ∧ (rc = 0 ∨ pyStrip "ok" ≠ "") :=
  c3_presence_invariant "example.com"
    (fun _ _ => RunEvent.completed 0 "ok" "") "ok" rfl

/-- Claim C4: when the child is killed by SIGKILL (return code -9), the
runner returns the captured stdout when it is non-empty after stripping,
and `none` otherwise. -/
theorem c4_sigkill_degraded (domain : String)
    (exec : List String → Nat → RunEvent) (out err : String)
    (h : exec (naabu_command domain) 300 = .completed (-9) out err) :
    run_naabu domain exec = if pyStrip out ≠ "" then some out else none := by
  simp only [run_naabu, h]
  simp

/-- Claim C4 witness: a stub killed by SIGKILL that wrote "partial" to
stdout yields the degraded-success result carrying "partial". -/
theorem c4_witness :
    run_naabu "example.com" (fun _ _ => RunEvent.completed (-9) "partial" "e")
      = some "partial" := by
  rw [c4_sigkill_degraded "example.com" _ "partial" "e" rfl]
  decide

/-- Claim C5: when the child exits with a non-zero status and is not
signal-killed (positive return code), the runner returns the captured
stdout when it is non-empty after stripping, and `none` otherwise. -/
theorem c5_nonzero_exit (domain : String)
    (exec : List String → Nat → RunEvent) (rc : Int) (out err : String)
    (hpos : 0 < rc)
    (h : exec (naabu_command domain) 300 = .completed rc out err) :
    run_naabu domain exec = if pyStrip out ≠ "" then some out else none := by
  have h9 : ¬ rc = -9 := by omega
  have h0 : rc ≠ 0 := by omega
  simp only [run_naabu, h]
  rw [if_neg h9, if_pos h0]

/-- Claim C5 witness: a stub that exits 2 with empty stdout yields the
absent result. -/
theorem c5_witness :
    run_naabu "example.com" (fun _ _ => RunEvent.completed 2 "" "boom") = none := by
  rw [c5_nonzero_exit "example.com" _ 2 "" "boom" (by decide) rfl]
  decide

/-- Claim C6: when the 300-second timeout elapses before the child exits
(`subprocess.run` raises `TimeoutExpired`), the runner returns `none`; the
call returns this value rather than blocking, `run_naabu` being a total
function of the event. -/
theorem c6_timeout_absent (domain : String)
    (exec : List String → Nat → RunEvent)
    (h : exec (naabu_command domain) 300 = .timedOut) :
    run_naabu domain exec = none := by
  simp only [run_naabu, h]

/-- Claim C6 witness: a stub that sleeps past the timeout yields the
absent result. -/
theorem c6_witness :
    run_naabu "example.com" (fun _ _ => RunEvent.timedOut) = none :=
  c6_timeout_absent "example.com" _ rfl

/-- Whether a `subprocess.run` call raised an exception instead of
returning a completed process. -/
def RunEvent.isException : RunEvent → Bool
  | .completed _ _ _ => false
  | .timedOut => true
  | .fileNotFound => true
  | .otherError _ => true

/-- Claim C7: no exception crosses the call boundary of `run_naabu`: every
exception `subprocess.run` can raise (timeout, missing binary, any other
launch-time error) is caught and encoded as the returned value `none`. -/
theorem c7_no_exception_escapes (domain : String)
    (exec : List String → Nat → RunEvent)
    (h : (exec (naabu_command domain) 300).isException = true) :
    run_naabu domain exec = none := by
  unfold run_naabu
  cases hev : exec (naabu_command domain) 300 with
  | completed rc out err => rw [hev] at h; exact absurd h (by simp [RunEvent.isException])
  | timedOut => rfl
  | fileNotFound => rfl
  | otherError m => rfl

/-- Claim C7 witness: a missing executable (`FileNotFoundError`) yields the
absent result with no exception crossing the boundary. -/
theorem c7_witness :
    run_naabu "example.com" (fun _ _ => RunEvent.fileNotFound) = none :=
  c7_no_exception_escapes "example.com" _ rfl

/-- Claim C8: the dependency check returns `True` exactly when the version
query completes within its 5-second limit with exit code 0, and when it
returns `False`, `main` exits with code 1 (creating no file and never
reaching the scan). -/
theorem c8_dependency_gate :
    (∀ ev : RunEvent,
      check_naabu_installed ev = .ok true ↔ ∃ out err, ev = .completed 0 out err)
    ∧ ∀ (argv : List String) (env : Env),
        2 ≤ argv.length →
        check_naabu_installed (env.exec version_command 5) = .ok false →
        main argv env = (.exited 1, none) := by
  constructor
  · intro ev
    cases ev with
    | completed rc out err =>
      constructor
      · intro h
        refine ⟨out, err, ?_⟩
        have hb : (rc == 0) = true := by injection h
        rw [eq_of_beq hb]
      · rintro ⟨o, e, he⟩
        injection he with h1 h2 h3
        rw [h1]
        rfl
    | timedOut =>
      constructor
      · intro h; cases h
      · rintro ⟨o, e, he⟩; cases he
    | fileNotFound =>
      constructor
      · intro h; cases h
      · rintro ⟨o, e, he⟩; cases he
    | otherError m =>
      constructor
      · intro h; cases h
      · rintro ⟨o, e, he⟩; cases he
  · intro argv env hlen hchk
    unfold main
    rw [if_neg (by omega), hchk]

/-- Claim C8 witness: with the binary absent from the PATH the dependency
check fails and `main` with one target argument exits 1 without creating a
file. -/
theorem c8_witness :
    main ["naabu.py", "example.com"] ⟨fun _ _ => RunEvent.fileNotFound, "t"⟩
      = (.exited 1, none) :=
  c8_dependency_gate.2 ["naabu.py", "example.com"]
    ⟨fun _ _ => RunEvent.fileNotFound, "t"⟩ (by decide) rfl

/-- Claim C9: persistence is the caller's decision and the runner does no
file I/O (its result type carries no file effect): whenever the runner
reports absence, `run_naabu_and_save` creates no file and returns 1; and
end-to-end, a failing dependency check makes `main` exit 1 with no output
file created. -/
theorem c9_no_file_on_absent :
    (∀ (domain : String) (env : Env),
      run_naabu domain env.exec = none → run_naabu_and_save domain env = (1, none))
    ∧ ∀ (argv : List String) (env : Env),
        check_naabu_installed (env.exec version_command 5) = .ok false →
        main argv env = (.exited 1, none) := by
  constructor
  · intro domain env h
    unfold run_naabu_and_save
    rw [h]
  · intro argv env hchk
    unfold main
    by_cases h : argv.length < 2
    · rw [if_pos h]
    · rw [if_neg h, hchk]

/-- Claim C9 witness: a timed-out scan reports absence, so no file is
written and the save step returns 1. -/
theorem c9_witness :
    run_naabu_and_save "example.com" ⟨fun _ _ => RunEvent.timedOut, "t"⟩ = (1, none) :=
  c9_no_file_on_absent.1 "example.com" ⟨fun _ _ => RunEvent.timedOut, "t"⟩ rfl

/-- Claim C10: in the signal-killed and non-zero-exit branches presence is
decided by `stdout.strip()`: any child with non-zero return code whose
stdout is whitespace-only yields `none`, even when the captured text is
non-empty. -/
theorem c10_whitespace_only_absent (domain : String)
    (exec : List String → Nat → RunEvent) (rc : Int) (out err : String)
    (h : exec (naabu_command domain) 300 = .completed rc out err)
    (hrc : rc ≠ 0) (hws : pyStrip out = "") :
    run_naabu domain exec = none := by
  simp only [run_naabu, h]
  by_cases h9 : rc = -9
  · rw [if_pos h9, if_neg (by simp [hws])]
  · rw [if_neg h9, if_pos hrc, if_neg (by simp [hws])]

/-- Claim C10 witness: stdout " \n" is non-empty but whitespace-only, and
both the SIGKILL branch and the exit-2 branch report absence on it. -/
theorem c10_witness :
    run_naabu "example.com" (fun _ _ => RunEvent.completed (-9) " \n" "") = none
    ∧ run_naabu "example.com" (fun _ _ => RunEvent.completed 2 " \n" "") = none :=
  ⟨c10_whitespace_only_absent "example.com" _ (-9) " \n" "" rfl (by decide) (by decide),
   c10_whitespace_only_absent "example.com" _ 2 " \n" "" rfl (by decide) (by decide)⟩

end Naabu
